import Mathlib

/-!
Verification of the HR attrition dashboard (`APP.py`).

The script loads a tabular HR dataset, filters it by department, gender and
an inclusive age range, and renders KPIs and charts from the filtered view.
This file gives a shallow embedding of the data model, the filter engine,
the three scalar KPIs and the age-bin derivation, and proves the spec's
claims about them.

Modelling conventions:
* a dataframe is a `List Row` in original row order;
* a pandas boolean mask is a `List Bool` aligned with the rows, and
  `df[mask]` is `maskSelect`;
* a float that may be NaN is `Option ℚ` (`none` models NaN; pandas returns
  NaN for the mean of an empty series, and Python `round` maps NaN to NaN);
* Python `int(x)` on a float truncates toward zero and raises `ValueError`
  on NaN; the raise is modelled with `Except.error`;
* rational arithmetic is carried out on numerators and denominators with
  `mkRat`, so every definition evaluates by kernel reduction.
-/

namespace HRDash

/-- One row of the HR dataset.  Only the columns the verified claims touch
are carried; the remaining columns play no role in the filter or the KPIs.
`Age` and `MonthlyIncome` are integer columns in the source file. -/
structure Row where
  Department : String
  Gender : String
  Age : ℤ
  Attrition : String
  MonthlyIncome : ℤ
deriving DecidableEq

/-- `pd.Series.isin(dom)` applied to one value: membership test. -/
def isin (dom : List String) (x : String) : Bool :=
  dom.contains x

/-- `pd.Series.between(lo, hi)` applied to one value: inclusive on both
ends (the pandas default). -/
def between (lo hi a : ℤ) : Bool :=
  decide (lo ≤ a) && decide (a ≤ hi)

/-- Boolean-mask row selection `df[mask]`: keep the rows whose aligned mask
entry is `true`, preserving order. -/
def maskSelect {α : Type} : List α → List Bool → List α
  | x :: xs, b :: bs => if b then x :: maskSelect xs bs else maskSelect xs bs
  | _, _ => []

/-- The filter engine of `APP.py` (lines 25-29): three aligned boolean
masks, one per predicate, combined pointwise with `&` and used to index the
dataframe. -/
def filtered_df (df : List Row) (departments genders : List String)
    (lo hi : ℤ) : List Row :=
  maskSelect df
    (List.zipWith (· && ·)
      (List.zipWith (· && ·)
        (df.map fun r => isin departments r.Department)
        (df.map fun r => isin genders r.Gender))
      (df.map fun r => between lo hi r.Age))

/-- The row predicate equivalent to the three masks. -/
def rowPred (departments genders : List String) (lo hi : ℤ) (r : Row) : Bool :=
  isin departments r.Department && isin genders r.Gender && between lo hi r.Age

/-- A pandas float value: `none` models IEEE NaN (e.g. the mean of an
empty series). -/
abbrev PFloat : Type := Option ℚ

/-- `Series.mean()` of an integer column: sum over count, NaN on the empty
series (the pandas behavior). -/
def seriesMean (xs : List ℤ) : PFloat :=
  if xs.isEmpty then none else some (mkRat xs.sum xs.length)

/-- `Series.mean()` of a boolean series, as pandas computes it
(`True ↦ 1`, `False ↦ 0`): fraction of `true` entries, NaN when empty. -/
def boolSeriesMean (bs : List Bool) : PFloat :=
  if bs.isEmpty then none else some (mkRat (bs.count true) bs.length)

/-- Multiplication of a possibly-NaN float by an integer scalar; NaN
propagates.  On the rational payload this is exact: `(n/d) * c = n*c/d`. -/
def pfScale (c : ℤ) : PFloat → PFloat
  | none => none
  | some q => some (mkRat (q.num * c) q.den)

/-- Round-half-to-even of the fraction `n / d` (for `d > 0`): the tie-break
Python's `round` uses on exact halves. -/
def roundFrac (n d : ℤ) : ℤ :=
  let f := Int.fdiv n d
  let r := n - f * d
  if 2 * r < d then f
  else if d < 2 * r then f + 1
  else if f % 2 = 0 then f else f + 1

/-- Python `round(x, k)` on a non-NaN value, over exact rationals. -/
def roundDec (k : ℕ) (q : ℚ) : ℚ :=
  mkRat (roundFrac (q.num * 10 ^ k) q.den) (10 ^ k)

/-- Python `round(x, k)` on a float: NaN propagates (`round(nan, k)` is
NaN, it does not raise). -/
def pyRound (k : ℕ) : PFloat → PFloat
  | none => none
  | some q => some (roundDec k q)

/-- Truncation of a rational toward zero, as Python `int()` truncates a
float. -/
def truncQ (q : ℚ) : ℤ :=
  Int.tdiv q.num q.den

/-- Python `int(x)` on a float: truncates toward zero, and raises
`ValueError` on NaN — the raise is the `Except.error` branch. -/
def pyInt : PFloat → Except String ℤ
  | none => Except.error "cannot convert float NaN to integer"
  | some q => Except.ok (truncQ q)

/-- KPI 1 (`APP.py` line 52): `round(filtered_df["Age"].mean(), 1)`. -/
def averageAgeKPI (view : List Row) : PFloat :=
  pyRound 1 (seriesMean (view.map Row.Age))

/-- KPI 2 (`APP.py` line 53): `int(filtered_df["MonthlyIncome"].mean())`. -/
def averageIncomeKPI (view : List Row) : Except String ℤ :=
  pyInt (seriesMean (view.map Row.MonthlyIncome))

/-- KPI 3 (`APP.py` line 54):
`round((filtered_df['Attrition'] == 'Yes').mean()*100, 2)`. -/
def attritionRateKPI (view : List Row) : PFloat :=
  pyRound 2 (pfScale 100 (boolSeriesMean (view.map fun r => r.Attrition == "Yes")))

/-- Rounding to the nearest integer (floor of `q + 1/2`), in integer
arithmetic: `⌊(2n + d) / 2d⌋` for `q = n/d`. -/
def roundNearest (q : ℚ) : ℤ :=
  Int.fdiv (2 * q.num + q.den) (2 * q.den)

/-- Second definition, following the spec's words rather than the source,
for comparison with `averageIncomeKPI`: the spec states the income KPI is
the "mean monthly income rounded to nearest integer". -/
def specAverageIncomeKPI (view : List Row) : Except String ℤ :=
  match seriesMean (view.map Row.MonthlyIncome) with
  | none => Except.error "undefined over an empty view"
  | some q => Except.ok (roundNearest q)

/-- `pd.cut(x, bins)` applied to one value, with the default `right=True`:
returns the `(lower, upper]` interval containing the value, or `none`
(pandas NaN) when the value lies in no interval. -/
def cutBin : List ℤ → ℤ → Option (ℤ × ℤ)
  | lo :: hi :: rest, a =>
      if lo < a ∧ a ≤ hi then some (lo, hi) else cutBin (hi :: rest) a
  | _, _ => none

/-- The fixed bin edges of chart 17, `APP.py` line 125. -/
def binEdges : List ℤ := [20, 30, 40, 50, 60]

/-- The intervals induced by a list of bin edges: consecutive pairs. -/
def binIntervals (edges : List ℤ) : List (ℤ × ℤ) :=
  edges.zip edges.tail

/-- Membership of a value in a `(lower, upper]` interval. -/
def memBin (a : ℤ) (p : ℤ × ℤ) : Bool :=
  decide (p.1 < a) && decide (a ≤ p.2)

/-- The process-wide state of the `st.cache_data` decorator around
`load_data`: the cached dataframe, when one exists, and the number of file
reads performed so far. -/
structure CacheState (α : Type) where
  cached : Option α
  reads : ℕ

/-- Modelled from the spec: the memoization that the `st.cache_data`
decorator wraps around `load_data` (`APP.py` lines 9-12; the decorator's
implementation lives in the streamlit library, which is not part of this
repository).  Per §4.1 of the spec, the first call reads the file and
caches the result, and every later call in the same process returns the
cached object without re-reading.  `read_csv` is indexed by the read count
so that a hypothetical re-read may produce a different parse; memoization
must never expose one. -/
def load_data {α : Type} (read_csv : ℕ → α) (s : CacheState α) :
    α × CacheState α :=
  match s.cached with
  | some d => (d, s)
  | none => (read_csv s.reads, ⟨some (read_csv s.reads), s.reads + 1⟩)

/-- A small concrete dataset used to evaluate the claims at concrete
inputs.  The mean monthly income is `5/3`. -/
def cRows : List Row :=
  [⟨"Sales", "Male", 30, "No", 1⟩,
   ⟨"Sales", "Male", 35, "Yes", 1⟩,
   ⟨"Sales", "Male", 40, "No", 3⟩]

theorem zipWith_and_map {α : Type} (f g : α → Bool) :
    ∀ l : List α,
      List.zipWith (· && ·) (l.map f) (l.map g) = l.map fun x => f x && g x
  | [] => rfl
  | x :: xs => by
      simp [List.zipWith, zipWith_and_map f g xs]

theorem maskSelect_map_eq_filter {α : Type} (p : α → Bool) :
    ∀ l : List α, maskSelect l (l.map p) = l.filter p
  | [] => rfl
  | x :: xs => by
      by_cases h : p x = true <;>
        simp [maskSelect, List.filter_cons, h, maskSelect_map_eq_filter p xs]

/-- The mask pipeline of `filtered_df` computes an ordinary predicate
filter over the rows. -/
theorem filtered_df_eq_filter (df : List Row) (departments genders : List String)
    (lo hi : ℤ) :
    filtered_df df departments genders lo hi =
      df.filter (rowPred departments genders lo hi) := by
  unfold filtered_df rowPred
  rw [zipWith_and_map, zipWith_and_map, maskSelect_map_eq_filter]

theorem isin_iff_mem (dom : List String) (x : String) :
    isin dom x = true ↔ x ∈ dom := by
  simp [isin]

theorem beq_eq_decide_eq (s t : String) : (s == t) = decide (s = t) := by
  by_cases h : s = t <;> simp [h]

theorem count_true_map {α : Type} (p : α → Bool) :
    ∀ l : List α, (l.map p).count true = (l.filter p).length
  | [] => rfl
  | x :: xs => by
      by_cases h : p x = true <;>
        simp [List.count_cons, List.filter_cons, h, count_true_map p xs]

theorem mkRat_scale (q : ℚ) (c : ℤ) : mkRat (q.num * c) q.den = q * c := by
  rw [Rat.mkRat_eq_div]
  push_cast
  rw [mul_div_right_comm, Rat.num_div_den]

/-- Claim C1: the filtered view is exactly the predicate filter of the
dataset — the rows whose Department is selected, whose Gender is selected
and whose Age lies in the inclusive range, in original row order — hence
every returned row satisfies all three predicates, the view is a
subsequence of the dataset, and the returned count is at most the total
count. -/
theorem filtered_df_semantics (df : List Row) (departments genders : List String)
    (lo hi : ℤ) :
    filtered_df df departments genders lo hi =
      df.filter (fun r => isin departments r.Department &&
        isin genders r.Gender && between lo hi r.Age) ∧
    (∀ r ∈ filtered_df df departments genders lo hi,
      r.Department ∈ departments ∧ r.Gender ∈ genders ∧
        lo ≤ r.Age ∧ r.Age ≤ hi) ∧
    (filtered_df df departments genders lo hi).Sublist df ∧
    (filtered_df df departments genders lo hi).length ≤ df.length := by
  rw [filtered_df_eq_filter]
  refine ⟨rfl, ?_, List.filter_sublist df, List.length_filter_le _ df⟩
  intro r hr
  have h := List.of_mem_filter hr
  simp [rowPred, isin, between] at h
  exact ⟨h.1.1, h.1.2, h.2.1, h.2.2⟩

theorem filtered_df_semantics_witness :
    (⟨"Sales", "Male", 30, "No", 1⟩ : Row) ∈
      filtered_df cRows ["Sales"] ["Male"] 18 60 ∧
    ((⟨"Sales", "Male", 30, "No", 1⟩ : Row).Department ∈ ["Sales"] ∧
      (⟨"Sales", "Male", 30, "No", 1⟩ : Row).Gender ∈ ["Male"] ∧
      (18 : ℤ) ≤ (⟨"Sales", "Male", 30, "No", 1⟩ : Row).Age ∧
      (⟨"Sales", "Male", 30, "No", 1⟩ : Row).Age ≤ 60) :=
  ⟨by decide,
    (filtered_df_semantics cRows ["Sales"] ["Male"] 18 60).2.1 _ (by decide)⟩

/-- Claim C6: an empty department selection or an empty gender selection
yields an empty view, by vacuous falsity of the membership test. -/
theorem empty_selection_empty_view (df : List Row)
    (departments genders : List String) (lo hi : ℤ)
    (h : departments = [] ∨ genders = []) :
    filtered_df df departments genders lo hi = [] := by
  rw [filtered_df_eq_filter]
  rcases h with h | h <;> subst h <;> simp [rowPred, isin]

theorem empty_selection_empty_view_witness :
    ((["Sales"] : List String) = [] ∨ ([] : List String) = []) ∧
    filtered_df cRows ["Sales"] [] 18 60 = [] :=
  ⟨Or.inr rfl, empty_selection_empty_view cRows ["Sales"] [] 18 60 (Or.inr rfl)⟩

/-- Claim C7: an inverted age range does not fail, it returns an empty
view; and a selection of department or gender values matching no row of
the dataset likewise degrades to zero matching rows rather than erroring. -/
theorem degenerate_filter_empty (df : List Row)
    (departments genders : List String) (lo hi : ℤ)
    (h : hi < lo ∨ (∀ r ∈ df, isin departments r.Department = false) ∨
      (∀ r ∈ df, isin genders r.Gender = false)) :
    filtered_df df departments genders lo hi = [] := by
  rw [filtered_df_eq_filter, List.filter_eq_nil_iff]
  intro r hr
  rcases h with h | h | h
  · simp [rowPred, between]
    intro _ _
    omega
  · simp [rowPred, h r hr]
  · simp [rowPred, h r hr]

theorem degenerate_filter_empty_witness :
    (30 : ℤ) < 50 ∧ filtered_df cRows ["Sales"] ["Male"] 50 30 = [] :=
  ⟨by decide,
    degenerate_filter_empty cRows ["Sales"] ["Male"] 50 30 (Or.inl (by decide))⟩

/-- Claim C8: filtering is idempotent — re-filtering an already-filtered
view with the same departments, genders and age bounds returns the same
rows. -/
theorem filtered_df_idempotent (df : List Row)
    (departments genders : List String) (lo hi : ℤ) :
    filtered_df (filtered_df df departments genders lo hi)
        departments genders lo hi =
      filtered_df df departments genders lo hi := by
  rw [filtered_df_eq_filter, filtered_df_eq_filter]
  simp [List.filter_filter, Bool.and_self]

/-- Claim C3: the Attrition Rate KPI equals `count(Attrition="Yes")`
divided by the row count of the view, as a percentage rounded to 2 decimal
places; on an empty view the computation is total (it does not raise) and
yields the defined sentinel NaN (`none`), which the metric widget displays
as `nan%`. -/
theorem attrition_rate_kpi_eq (view : List Row) :
    attritionRateKPI view =
      if view = [] then none
      else some (roundDec 2
        ((((view.filter fun r => decide (r.Attrition = "Yes")).length : ℚ) /
          (view.length : ℚ)) * 100)) := by
  by_cases h : view = []
  · subst h; rfl
  · rw [if_neg h]
    simp only [attritionRateKPI, boolSeriesMean, pfScale, pyRound,
      beq_eq_decide_eq]
    have hb : (view.map fun r => decide (r.Attrition = "Yes")).isEmpty = false := by
      simp [List.isEmpty_iff, h]
    simp only [hb, Bool.false_eq_true, if_false]
    simp only [mkRat_scale]
    simp only [Rat.mkRat_eq_div, count_true_map, List.length_map]
    push_cast
    ring_nf

/-- Claim C4 (amended): for every non-empty filtered view the Average Age
KPI equals the mean of the Age column rounded to 1 decimal place, and the
Average Income KPI equals the mean of the MonthlyIncome column truncated
toward zero by Python `int()` — not rounded to the nearest integer as the
original claim stated. -/
theorem kpi_means_eq (view : List Row) (h : view ≠ []) :
    averageAgeKPI view =
      some (roundDec 1 (((view.map Row.Age).sum : ℚ) / (view.length : ℚ))) ∧
    averageIncomeKPI view =
      Except.ok (truncQ (((view.map Row.MonthlyIncome).sum : ℚ) /
        (view.length : ℚ))) := by
  have ha : (view.map Row.Age).isEmpty = false := by
    simp [List.isEmpty_iff, h]
  have hm : (view.map Row.MonthlyIncome).isEmpty = false := by
    simp [List.isEmpty_iff, h]
  constructor <;>
    simp only [averageAgeKPI, averageIncomeKPI, seriesMean, ha, hm,
      Bool.false_eq_true, if_false, pyRound, pyInt, Rat.mkRat_eq_div,
      List.length_map]

theorem kpi_means_eq_witness :
    cRows ≠ [] ∧
    (averageAgeKPI cRows =
        some (roundDec 1 (((cRows.map Row.Age).sum : ℚ) / (cRows.length : ℚ))) ∧
      averageIncomeKPI cRows =
        Except.ok (truncQ (((cRows.map Row.MonthlyIncome).sum : ℚ) /
          (cRows.length : ℚ)))) :=
  ⟨by decide, kpi_means_eq cRows (by decide)⟩

/-- Claim C4 counterexample: on a concrete filtered view whose mean
monthly income is `5/3`, the code's Average Income KPI is the truncation
`int(5/3) = 1`, while the claimed rounding to the nearest integer gives
`2`. -/
theorem average_income_not_rounded :
    averageIncomeKPI (filtered_df cRows ["Sales"] ["Male"] 18 60) = Except.ok 1 ∧
    specAverageIncomeKPI (filtered_df cRows ["Sales"] ["Male"] 18 60) = Except.ok 2 ∧
    (Except.ok (1 : ℤ) : Except String ℤ) ≠ Except.ok 2 :=
  ⟨rfl, rfl, by simp⟩

/-- Claim C2 is violated by the code: an empty department selection gives
an empty view, the Average Age and Attrition Rate computations degrade to
NaN without raising, but the Average Income KPI computes `int(NaN)`, which
raises `ValueError` — it does not produce a value. -/
theorem average_income_empty_view_raises :
    filtered_df cRows [] ["Male"] 18 60 = [] ∧
    averageAgeKPI [] = none ∧
    attritionRateKPI [] = none ∧
    averageIncomeKPI [] = Except.error "cannot convert float NaN to integer" :=
  ⟨by decide, rfl, rfl, rfl⟩

/-- Claim C5: with edges `[20, 30, 40, 50, 60]`, every in-range age
(`20 < a ≤ 60`) lies in exactly one `(lower, upper]` interval, `pd.cut`
returns exactly that interval, and the boundary ages 30, 40, 50 fall in
`(20,30]`, `(30,40]`, `(40,50]` respectively. -/
theorem age_bins_inrange_unique (a : ℤ) (h1 : 20 < a) (h2 : a ≤ 60) :
    ((binIntervals binEdges).filter (memBin a)).length = 1 ∧
    cutBin binEdges a = ((binIntervals binEdges).filter (memBin a)).head? ∧
    cutBin binEdges 30 = some (20, 30) ∧
    cutBin binEdges 40 = some (30, 40) ∧
    cutBin binEdges 50 = some (40, 50) := by
  interval_cases a <;> decide

theorem age_bins_inrange_unique_witness :
    (20 : ℤ) < 35 ∧ (35 : ℤ) ≤ 60 ∧
    (((binIntervals binEdges).filter (memBin 35)).length = 1 ∧
      cutBin binEdges 35 = ((binIntervals binEdges).filter (memBin 35)).head? ∧
      cutBin binEdges 30 = some (20, 30) ∧
      cutBin binEdges 40 = some (30, 40) ∧
      cutBin binEdges 50 = some (40, 50)) :=
  ⟨by decide, by decide, age_bins_inrange_unique 35 (by decide) (by decide)⟩

/-- Claim C10: an age at most 20 or greater than 60 is assigned to no bin
by the age-group derivation (its bin value is NaN), so the row carries no
age group even when it passes the age-range filter; age exactly 20 in
particular falls outside every bin. -/
theorem out_of_range_age_no_bin (a : ℤ) (h : a ≤ 20 ∨ 60 < a) :
    cutBin binEdges a = none := by
  have h20 : ¬(20 < a ∧ a ≤ 30) := by omega
  have h30 : ¬(30 < a ∧ a ≤ 40) := by omega
  have h40 : ¬(40 < a ∧ a ≤ 50) := by omega
  have h50 : ¬(50 < a ∧ a ≤ 60) := by omega
  simp [binEdges, cutBin, h20, h30, h40, h50]

theorem out_of_range_age_no_bin_witness :
    ((20 : ℤ) ≤ 20 ∨ (60 : ℤ) < 20) ∧
    cutBin binEdges 20 = none ∧ between 18 60 20 = true :=
  ⟨Or.inl (by decide), out_of_range_age_no_bin 20 (Or.inl (by decide)),
    by decide⟩

/-- Claim C9: the loader is memoized — starting from the empty cache, the
first call reads the file once, and the second call returns exactly the
cached value with the cache state unchanged (read count stays 1), for
every possible sequence of file parses. -/
theorem load_data_memoized {α : Type} (read_csv : ℕ → α) :
    (load_data read_csv ⟨none, 0⟩).1 = read_csv 0 ∧
    (load_data read_csv ⟨none, 0⟩).2.reads = 1 ∧
    load_data read_csv (load_data read_csv ⟨none, 0⟩).2 =
      ((load_data read_csv ⟨none, 0⟩).1, (load_data read_csv ⟨none, 0⟩).2) :=
  ⟨rfl, rfl, rfl⟩

end HRDash
